import Mathlib

/-!
Shallow embedding of `glance/store/backend.py` (the backend abstraction and
dispatch core): the driver registry, the dispatcher, the metadata validator
`check_location_metadata`, and the streaming adapter `Indexable`.

Python strings are Lean `String`s, Python `int`s are `Int`/`Nat`, raised
exceptions are the `error` side of `Except`, and log calls are collected in an
explicit list of `LogEvent`s.  Each driver ("store") is modelled by the
outcomes its operations produce for the call under consideration.
-/

namespace GlanceStore

/-- Modelled from the spec: `glance.store.exceptions` is not under `src/`
(only `backend.py` imports it).  The spec's error taxonomy (§7) lists
UnknownScheme, ConfigurationError, OperationUnsupported(op), NotFound,
InvalidMetadata and BackendFailure as distinct kinds, so the exception
classes caught by name in `backend.py` are modelled as distinct
constructors.  `notImplementedError`, `nameError` and `typeError` are the
Python builtins of those names. -/
inductive Exc where
  | notFound
  | unknownScheme (scheme : String)
  | storeGetNotSupported
  | storeDeleteNotSupported
  | storeAddNotSupported
  | unsupportedBackend
  | backendException (msg : String)
  | badStoreConfiguration
  | notImplementedError
  | nameError (name : String)
  | typeError
  deriving DecidableEq, Repr

/-- Log severity of an emitted log call. -/
inductive LogLevel where
  | debug
  | warn
  | error
  deriving DecidableEq, Repr

/-- One `LOG.<level>(msg)` call. -/
structure LogEvent where
  level : LogLevel
  msg : String
  deriving DecidableEq, Repr

/-- A Python value as seen by the metadata validator: `dict` (iterated as a
key/value list), `list`, unicode text, and the other leaf types a driver
could return.  `bytes` stands for a non-unicode Python 2 `str`. -/
inductive PyVal where
  | dict (entries : List (String × PyVal))
  | list (elems : List PyVal)
  | str (s : String)
  | int (n : Int)
  | float (repr : String)
  | bool (b : Bool)
  | none
  | bytes (s : String)

/-- `type(val)` name, as interpolated into the validator's error message. -/
def pyTypeName : PyVal → String
  | .dict _ => "dict"
  | .list _ => "list"
  | .str _ => "unicode"
  | .int _ => "int"
  | .float _ => "float"
  | .bool _ => "bool"
  | .none => "NoneType"
  | .bytes _ => "str"

/-- The message of the `BackendException` raised by `check_location_metadata`
for a non-dict/list/unicode value reached at path `key`. -/
def invalidMetadataMsg (key ty : String) : String :=
  "The image metadata key " ++ key ++ " has an invalid type of " ++ ty ++
    ". Only dict, list, and unicode are supported."

mutual

/-- `check_location_metadata(val, key='')`: recursively accepts dicts, lists
and unicode text, and raises `BackendException` naming the offending key for
any other leaf. -/
def check_location_metadata (val : PyVal) (key : String := "") : Except Exc Unit :=
  match val with
  | .dict entries => checkDictEntries entries
  | .list elems => checkListElems elems key 0
  | .str _ => .ok ()
  | v => .error (.backendException (invalidMetadataMsg key (pyTypeName v)))

/-- The `for key in val:` loop of the dict branch: each value is checked with
`key` rebound to its dict key. -/
def checkDictEntries (entries : List (String × PyVal)) : Except Exc Unit :=
  match entries with
  | [] => .ok ()
  | (k, v) :: rest => do
      check_location_metadata v k
      checkDictEntries rest

/-- The `for v in val:` loop of the list branch: element `ndx` is checked
with key `key ++ "[" ++ ndx ++ "]"`. -/
def checkListElems (elems : List PyVal) (key : String) (ndx : Nat) : Except Exc Unit :=
  match elems with
  | [] => .ok ()
  | v :: rest => do
      check_location_metadata v (key ++ "[" ++ toString ndx ++ "]")
      checkListElems rest key (ndx + 1)

end

/-- Values built only from mappings, ordered sequences and unicode text
leaves: the shapes the validator is specified to accept. -/
inductive TextOnly : PyVal → Prop where
  | str (s : String) : TextOnly (.str s)
  | dict (entries : List (String × PyVal))
      (h : ∀ kv ∈ entries, TextOnly kv.2) : TextOnly (.dict entries)
  | list (elems : List PyVal)
      (h : ∀ v ∈ elems, TextOnly v) : TextOnly (.list elems)

/-- Leaf types other than unicode text. -/
def badLeaf : PyVal → Bool
  | .int _ => true
  | .float _ => true
  | .bool _ => true
  | .none => true
  | .bytes _ => true
  | _ => false

/-- A driver ("store") instance, modelled by the outcome each of its
operations produces for the call under consideration: `Except.error` stands
for the Python call raising that exception.  `schemes` is the result of
`get_schemes()`; `add` returns the `(location, size, checksum, metadata)`
tuple. -/
structure Store where
  name : String
  schemes : List String
  get : Except Exc (List String)
  get_size : Except Exc Nat
  delete : Except Exc Unit
  add : Except Exc (String × Nat × String × Option PyVal)
  set_acls : Except Exc Unit

/-- The scheme → store table (`location.SCHEME_TO_CLS_MAP`), as an
association list; the location-class half of each entry is elided. -/
abbrev SchemeMap := List (String × Store)

/-- Lookup of a scheme in the table (`scheme in location.SCHEME_TO_CLS_MAP`
and `location.SCHEME_TO_CLS_MAP[scheme]`). -/
def SchemeMap.lookup (m : SchemeMap) (scheme : String) : Option Store :=
  List.lookup scheme m

/-- `len(s)` of a Python string, over the character list. -/
def strLen (s : String) : Nat := s.toList.length

/-- `uri.find(c)`: index of the first occurrence, `-1` when absent. -/
def pyFind (s : String) (c : Char) : Int :=
  match s.toList.findIdx? (· = c) with
  | some i => (i : Int)
  | Option.none => -1

/-- `s[0:k]` for an `int` bound `k`: a negative bound counts from the end,
clamped at 0. -/
def pyTake (s : String) (k : Int) : String :=
  if k < 0 then ⟨s.toList.take ((strLen s : Int) + k).toNat⟩
  else ⟨s.toList.take k.toNat⟩

/-- `s[k:]` for an `int` start `k`: a negative start counts from the end,
clamped at 0. -/
def pySliceFrom (s : String) (k : Int) : String :=
  if k < 0 then ⟨s.toList.drop ((strLen s : Int) + k).toNat⟩
  else ⟨s.toList.drop k.toNat⟩

/-- `get_store_from_scheme(scheme)`: raises `UnknownScheme` when the scheme
is not registered. -/
def get_store_from_scheme (m : SchemeMap) (scheme : String) : Except Exc Store :=
  match m.lookup scheme with
  | Option.none => .error (.unknownScheme scheme)
  | some store => .ok store

/-- The scheme slice of `get_store_from_uri`:
`scheme = uri[0:uri.find('/') - 1]`. -/
def schemeOfUri (uri : String) : String :=
  pyTake uri (pyFind uri '/' - 1)

/-- `get_store_from_uri(uri)`. -/
def get_store_from_uri (m : SchemeMap) (uri : String) : Except Exc Store :=
  get_store_from_scheme m (schemeOfUri uri)

/-- A location decoded from a URI; carries its owning scheme name. -/
structure Location where
  store_name : String
  uri : String

/-- The scheme before the first colon of a URI. -/
def colonScheme (uri : String) : String :=
  ⟨uri.toList.takeWhile (· ≠ ':')⟩

/-- Modelled from the spec: `glance.store.location.get_location_from_uri` is
not under `src/`.  Spec §4.1/§6: decode splits the URI at the colon
delimiter into scheme and backend-specific remainder, and an unregistered
scheme fails with `UnknownScheme`; the Location carries its owning scheme
name. -/
def get_location_from_uri (m : SchemeMap) (uri : String) : Except Exc Location :=
  if (m.lookup (colonScheme uri)).isSome then .ok ⟨colonScheme uri, uri⟩
  else .error (.unknownScheme (colonScheme uri))

/-- `get_store_from_location(uri)`: decodes the URI and returns the
location's store name. -/
def get_store_from_location (m : SchemeMap) (uri : String) : Except Exc String :=
  (get_location_from_uri m uri).map (·.store_name)

/-- `get_from_backend(uri)`: resolves location and store, delegates to
`store.get`, and maps `NotImplementedError` to `StoreGetNotSupported`. -/
def get_from_backend (m : SchemeMap) (uri : String) : Except Exc (List String) := do
  let _loc ← get_location_from_uri m uri
  let store ← get_store_from_uri m uri
  match store.get with
  | .error .notImplementedError => .error .storeGetNotSupported
  | r => r

/-- `get_size_from_backend(uri)`: resolves and delegates, no catch. -/
def get_size_from_backend (m : SchemeMap) (uri : String) : Except Exc Nat := do
  let _loc ← get_location_from_uri m uri
  let store ← get_store_from_uri m uri
  store.get_size

/-- `delete_from_backend(uri)`: resolves location and store, delegates to
`store.delete`, and maps `NotImplementedError` to
`StoreDeleteNotSupported`. -/
def delete_from_backend (m : SchemeMap) (uri : String) : Except Exc Unit := do
  let _loc ← get_location_from_uri m uri
  let store ← get_store_from_uri m uri
  match store.delete with
  | .error .notImplementedError => .error .storeDeleteNotSupported
  | r => r

/-- `safe_delete_from_backend(uri, image_id)`: wraps `delete_from_backend`,
catching exactly `NotFound`, `StoreDeleteNotSupported` and
`UnsupportedBackend` (each logged); any other exception propagates.  The
second component collects the log calls. -/
def safe_delete_from_backend (m : SchemeMap) (uri image_id : String) :
    Except Exc Unit × List LogEvent :=
  match delete_from_backend m uri with
  | .ok r => (.ok r, [])
  | .error .notFound =>
      (.ok (), [⟨.warn, "Failed to delete image " ++ image_id ++ " in store from URI"⟩])
  | .error .storeDeleteNotSupported =>
      (.ok (), [⟨.warn, "Delete is not supported for this store"⟩])
  | .error .unsupportedBackend =>
      (.ok (), [⟨.error, "Failed to delete image " ++ image_id ++
        " from store (UnsupportedBackend)"⟩])
  | .error e => (.error e, [])

/-- `val` is a Python `dict`. -/
def isDict : PyVal → Bool
  | .dict _ => true
  | _ => false

/-- Message of the `BackendException` raised when a driver returns non-dict
metadata (the `str(metadata)` interpolation is elided). -/
def invalidDriverMetadataMsg (driver : String) : String :=
  "The storage driver " ++ driver ++ " returned invalid metadata. " ++
    "This must be a dictionary type"

/-- Message of the `BackendException` re-raised when the recursive check
rejects the returned metadata (the `str(metadata)` interpolation is
elided). -/
def badMetadataStructureMsg (driver inner : String) : String :=
  "A bad metadata structure was returned from the " ++ driver ++
    " storage driver. " ++ inner ++ "."

/-- `store_add_to_backend(image_id, data, size, store)`: delegates to
`store.add`; when the returned metadata is not `None` it must be a dict
(else `BackendException`), and is then recursively validated, a validation
failure being re-raised as `BackendException` with a wrapped message. -/
def store_add_to_backend (_image_id _data : String) (_size : Nat) (store : Store) :
    Except Exc (String × Nat × String × Option PyVal) := do
  let (loc, sz, checksum, metadata) ← store.add
  match metadata with
  | Option.none => pure (loc, sz, checksum, Option.none)
  | some md =>
      if isDict md then
        match check_location_metadata md "" with
        | .ok () => pure (loc, sz, checksum, some md)
        | .error (.backendException e) =>
            .error (.backendException (badMetadataStructureMsg store.name e))
        | .error e => .error e
      else
        .error (.backendException (invalidDriverMetadataMsg store.name))

/-- `add_to_backend(conf, image_id, data, size, scheme)`: a `None` scheme
falls back to the configured default store; delegates to
`store_add_to_backend` and maps `NotImplementedError` to
`StoreAddNotSupported`. -/
def add_to_backend (m : SchemeMap) (default_store : String) (image_id data : String)
    (size : Nat) (scheme : Option String) :
    Except Exc (String × Nat × String × Option PyVal) := do
  let s := scheme.getD default_store
  let store ← get_store_from_scheme m s
  match store_add_to_backend image_id data size store with
  | .error .notImplementedError => .error .storeAddNotSupported
  | r => r

/-- `set_acls(location_uri, public, read_tenants, write_tenants)`: resolves
location and store and delegates to `store.set_acls`;
`NotImplementedError` is swallowed with a debug log.  The second component
collects the log calls. -/
def set_acls (m : SchemeMap) (location_uri : String) (_public : Bool)
    (_read_tenants : List String) (write_tenants : Option (List String)) :
    Except Exc Unit × List LogEvent :=
  let _wt := write_tenants.getD []
  match (do
      let _loc ← get_location_from_uri m location_uri
      let scheme ← get_store_from_location m location_uri
      get_store_from_scheme m scheme : Except Exc Store) with
  | .error e => (.error e, [])
  | .ok store =>
      match store.set_acls with
      | .error .notImplementedError =>
          (.ok (), [⟨.debug, "Skipping store.set_acls... not implemented."⟩])
      | r => (r, [])

/-- Outcome of `driver.DriverManager(...)` for one configured store entry:
the stevedore plugin machinery is external, so each entry's behaviour is an
input. -/
inductive LoadOutcome where
  | ok (s : Store)
  | runtimeError
  | badStoreConfiguration

/-- `_load_store(conf, store_entry)`: returns the driver; `RuntimeError` is
caught with a warning and the function falls through, returning `None`;
`BadStoreConfiguration` propagates to the caller. -/
def _load_store (outcome : LoadOutcome) : Except Exc (Option Store) :=
  match outcome with
  | .ok s => .ok (some s)
  | .runtimeError => .ok Option.none
  | .badStoreConfiguration => .error .badStoreConfiguration

/-- `_load_stores(conf)`: yields `(entry, instance)` for each configured
entry whose load produced an instance; a falsy instance is skipped
(`continue`) and `BadStoreConfiguration` is caught and skipped. -/
def _load_stores (conf : List (String × LoadOutcome)) : List (String × Store) :=
  match conf with
  | [] => []
  | (entry, o) :: rest =>
      match _load_store o with
      | .ok (some s) => (entry, s) :: _load_stores rest
      | .ok Option.none => _load_stores rest
      | .error _ => _load_stores rest

/-- Modelled from the spec: `glance.store.location.register_scheme_map` is
not under `src/`.  Spec §4.2: merges scheme→driver entries into the table,
the last writer for a given scheme winning — newer entries shadow older
ones under `SchemeMap.lookup`. -/
def register_scheme_map (current : SchemeMap) (scheme_map : List (String × Store)) :
    SchemeMap :=
  scheme_map ++ current

/-- The loop body of `create_stores` over the loaded `(entry, store)` pairs:
a store whose `get_schemes()` is empty raises — but the raise's message
interpolates `store_cls`, a name bound only inside `_load_store` and unbound
in `create_stores`, so evaluating it raises `NameError` before the intended
`BackendException` can be constructed.  Otherwise the store is registered
under each of its schemes and the count grows.  (`configure()` and the
location class are driver-side effects, elided.) -/
def create_stores_go : List (String × Store) → Nat → SchemeMap →
    Except Exc (Nat × SchemeMap)
  | [], count, reg => .ok (count, reg)
  | (_entry, store) :: rest, count, reg =>
      if store.schemes.isEmpty then
        .error (.nameError "store_cls")
      else
        create_stores_go rest (count + 1)
          (register_scheme_map reg (store.schemes.map fun sch => (sch, store)))

/-- `create_stores(conf)`: loads the configured drivers and registers each
one's schemes, returning the count of registered stores (paired here with
the resulting scheme table). -/
def create_stores (conf : List (String × LoadOutcome)) : Except Exc (Nat × SchemeMap) :=
  create_stores_go (_load_stores conf) 0 []

/-- The streaming adapter `Indexable`: `wrapped` holds the remaining chunks
of the wrapped one-pass source, `size` the declared size, `cursor` the bytes
consumed through indexed access, and `chunk` the most recently cached chunk
(`None` initially). -/
structure Indexable where
  wrapped : List String
  size : Nat
  cursor : Nat
  chunk : Option String
  deriving DecidableEq, Repr

/-- `Indexable.__init__(wrapped, size)`: a falsy `size` (`None` or `0`)
falls back to `wrapped.len` when that attribute exists, else `0`;
`cursor` starts at `0` and `chunk` at `None`.  `wrappedLen` models
`wrapped.len if hasattr(wrapped, 'len') else` the absent attribute. -/
def Indexable.init (wrapped : List String) (size : Option Nat)
    (wrappedLen : Option Nat) : Indexable :=
  { wrapped := wrapped,
    size := match size with
      | some n => if n ≠ 0 then n else wrappedLen.getD 0
      | Option.none => wrappedLen.getD 0,
    cursor := 0,
    chunk := Option.none }

/-- `Indexable.__len__()`. -/
def Indexable.len (st : Indexable) : Nat := st.size

/-- One step of `__iter__`'s `for self.chunk in self.wrapped: yield
self.chunk`: the next chunk of the source is yielded and cached; nothing
else in the state changes. -/
def Indexable.iterStep (st : Indexable) : Option (String × Indexable) :=
  match st.wrapped with
  | [] => Option.none
  | c :: rest => some (c, { st with wrapped := rest, chunk := some c })

/-- Running the `__iter__` loop over the chunks still to come: yields each
chunk, caching it as it goes. -/
def iterGo : List String → Indexable → List String × Indexable
  | [], st => ([], st)
  | c :: rest, st =>
      let st1 : Indexable := { st with wrapped := rest, chunk := some c }
      let (ys, stf) := iterGo rest st1
      (c :: ys, stf)

/-- Iterating the adapter to exhaustion: the yielded chunks and the final
state. -/
def Indexable.iterAll (st : Indexable) : List String × Indexable :=
  iterGo st.wrapped st

/-- `Indexable.__getitem__(i)` with requested start offset `start`,
parametrised by the overridable `another()` seam (a subclass hook that may
consume adapter state and produce the next chunk, or a falsy end-of-stream
value).  When `start < self.cursor` the cached chunk is sliced to the end
from `start - self.cursor` (subscripting a `None` chunk is a `TypeError`);
otherwise `another()` is fetched and cached, and the cursor advances by the
new chunk's length exactly when the chunk is truthy. -/
def Indexable.getitem (another : Indexable → Option String × Indexable)
    (st : Indexable) (start : Int) : Except Exc (Option String × Indexable) :=
  if start < (st.cursor : Int) then
    match st.chunk with
    | Option.none => .error .typeError
    | some c => .ok (some (pySliceFrom c (start - (st.cursor : Int))), st)
  else
    let (ch, st1) := another st
    let st2 := { st1 with chunk := ch }
    match ch with
    | some s =>
        if s ≠ "" then .ok (ch, { st2 with cursor := st2.cursor + strLen s })
        else .ok (ch, st2)
    | Option.none => .ok (ch, st2)

/-- The natural `another()` subclass hook: produce the next chunk of the
wrapped source, or `None` at end of stream. -/
def nextChunk (st : Indexable) : Option String × Indexable :=
  match st.wrapped with
  | [] => (Option.none, st)
  | c :: rest => (some c, { st with wrapped := rest })

/-- A sample driver registered for the `file` scheme, every operation
succeeding. -/
def fileStore : Store :=
  { name := "file", schemes := ["file"], get := .ok ["hello"], get_size := .ok 5,
    delete := .ok (), add := .ok ("file:///img", 5, "chk", Option.none),
    set_acls := .ok () }

/-- A sample driver that instantiates but reports zero supported schemes. -/
def noSchemeStore : Store :=
  { name := "bad", schemes := [], get := .ok [], get_size := .ok 0,
    delete := .ok (), add := .ok ("", 0, "", Option.none), set_acls := .ok () }

/-- A sample driver whose optional operations raise `NotImplementedError`
and whose delete target is missing. -/
def noAclStore : Store :=
  { name := "sheepdog", schemes := ["sheepdog"], get := .ok ["xx"], get_size := .ok 2,
    delete := .error .notFound, add := .ok ("sheepdog://img", 2, "chk", Option.none),
    set_acls := .error .notImplementedError }

/-- A sample driver whose add returns bare-text metadata. -/
def strMetaStore : Store :=
  { name := "mem", schemes := ["mem"], get := .ok [], get_size := .ok 1,
    delete := .ok (), add := .ok ("mem://x", 1, "c", some (.str "t")),
    set_acls := .ok () }

theorem checkDictEntries_ok (entries : List (String × PyVal))
    (h : ∀ kv ∈ entries, ∀ key, check_location_metadata kv.2 key = .ok ()) :
    checkDictEntries entries = .ok () := by
  induction entries with
  | nil => simp [checkDictEntries]
  | cons kv rest ih =>
      simp only [checkDictEntries, h kv (by simp), bind, Except.bind]
      exact ih fun kv hkv key => h kv (by simp [hkv]) key

theorem checkListElems_ok (elems : List PyVal)
    (h : ∀ v ∈ elems, ∀ key, check_location_metadata v key = .ok ()) :
    ∀ key ndx, checkListElems elems key ndx = .ok () := by
  induction elems with
  | nil => intro key ndx; simp [checkListElems]
  | cons v rest ih =>
      intro key ndx
      simp only [checkListElems, h v (by simp), bind, Except.bind]
      exact ih (fun v hv key => h v (by simp [hv]) key) key (ndx + 1)

theorem check_location_metadata_textOnly {v : PyVal} (hv : TextOnly v) :
    ∀ key, check_location_metadata v key = .ok () := by
  induction hv with
  | str s => intro key; simp [check_location_metadata]
  | dict entries h ih =>
      intro key
      simpa [check_location_metadata] using
        checkDictEntries_ok entries fun kv hkv => ih kv hkv
  | list elems h ih =>
      intro key
      simpa [check_location_metadata] using
        checkListElems_ok elems (fun v hv => ih v hv) key 0

theorem check_location_metadata_badLeaf {v : PyVal} (hv : badLeaf v = true)
    (key : String) :
    check_location_metadata v key =
      .error (.backendException (invalidMetadataMsg key (pyTypeName v))) := by
  cases v <;> simp_all [badLeaf, check_location_metadata]

/-- C5: the metadata validator accepts `{}`, `[]`, a text leaf, and every
nesting of mappings, ordered sequences and text leaves; any other leaf is
rejected with a `BackendException` carrying the offending path, which is
`"k"` for `{"k": 123}` and `"[1]"` for `["a", 4.5, "c"]`. -/
theorem check_location_metadata_shapes :
    (∀ v : PyVal, TextOnly v → ∀ key, check_location_metadata v key = .ok ()) ∧
    (∀ (v : PyVal) (key : String), badLeaf v = true →
      check_location_metadata v key =
        .error (.backendException (invalidMetadataMsg key (pyTypeName v)))) ∧
    check_location_metadata (.dict [("k", .int 123)]) "" =
      .error (.backendException (invalidMetadataMsg "k" "int")) ∧
    check_location_metadata (.list [.str "a", .float "4.5", .str "c"]) "" =
      .error (.backendException (invalidMetadataMsg "[1]" "float")) := by
  refine ⟨fun v hv key => check_location_metadata_textOnly hv key,
          fun v key hv => check_location_metadata_badLeaf hv key, ?_, ?_⟩
  · simp [check_location_metadata, checkDictEntries, checkListElems, bind,
      Except.bind, pyTypeName]
  · simp [check_location_metadata, checkDictEntries, checkListElems, bind,
      Except.bind, pyTypeName]
    rfl

/-- C5 witness: the empty dict, the empty list, a bare text leaf and a
nested shape are accepted; a boolean leaf at path `p` is rejected. -/
theorem check_location_metadata_shapes_witness :
    check_location_metadata (.dict []) "" = .ok () ∧
    check_location_metadata (.list []) "" = .ok () ∧
    check_location_metadata (.str "text") "" = .ok () ∧
    check_location_metadata (.dict [("a", .list [.str "b"])]) "" = .ok () ∧
    check_location_metadata (.bool true) "p" =
      .error (.backendException (invalidMetadataMsg "p" "bool")) :=
  ⟨check_location_metadata_shapes.1 _ (TextOnly.dict [] (by simp)) "",
   check_location_metadata_shapes.1 _ (TextOnly.list [] (by simp)) "",
   check_location_metadata_shapes.1 _ (TextOnly.str "text") "",
   check_location_metadata_shapes.1 _
     (TextOnly.dict [("a", .list [.str "b"])] (by
        intro kv hkv
        simp only [List.mem_singleton] at hkv
        subst hkv
        exact TextOnly.list [.str "b"] (by
          intro v hv
          simp only [List.mem_singleton] at hv
          subst hv
          exact TextOnly.str "b"))) "",
   check_location_metadata_shapes.2.1 _ "p" rfl⟩

/-- C2 (evaluation at the failing input): with the scheme `file`
registered, the URI `file:abc` — of the claimed form
`<scheme>:<backend-specific-remainder>` — has its scheme computed as
`uri[0:uri.find('/') - 1]`; with no `/` in the URI that is `uri[0:-2] =
"file:a"`, not the text before the colon, so `get_store_from_uri` raises
`UnknownScheme` instead of returning the registered driver. -/
theorem get_store_from_uri_misparses_slashless_uri :
    colonScheme "file:abc" = "file" ∧
    SchemeMap.lookup [("file", fileStore)] "file" = some fileStore ∧
    schemeOfUri "file:abc" = "file:a" ∧
    get_store_from_uri [("file", fileStore)] "file:abc" =
      .error (.unknownScheme "file:a") := by
  refine ⟨by decide, rfl, by decide, ?_⟩
  have h : schemeOfUri "file:abc" = "file:a" := by decide
  rw [get_store_from_uri, h]
  rfl

/-- C3 (evaluation at the failing input): a loaded driver with zero schemes
makes `create_stores` fatal, but the raise's message interpolates
`store_cls`, unbound in `create_stores`, so the error is a `NameError`
rather than the intended `BackendException`; a driver whose load raises
`RuntimeError` or `BadStoreConfiguration` is skipped and the load continues
with the remaining drivers. -/
theorem create_stores_zero_schemes_fatal :
    create_stores [("file", .ok fileStore), ("bad", .ok noSchemeStore)] =
      .error (.nameError "store_cls") ∧
    create_stores [("broken", .runtimeError), ("file", .ok fileStore)] =
      .ok (1, [("file", fileStore)]) ∧
    create_stores [("misconfigured", .badStoreConfiguration), ("file", .ok fileStore)] =
      .ok (1, [("file", fileStore)]) := by
  refine ⟨?_, ?_, ?_⟩ <;>
    simp [create_stores, create_stores_go, _load_stores, _load_store,
      register_scheme_map, fileStore, noSchemeStore]

/-- C1 counterexample: with only `file` registered,
`safe_delete_from_backend` on `swift://host/obj` — a uri whose scheme has
no registered driver — does raise: the `UnknownScheme` from scheme
resolution is not among the caught exception classes and propagates. -/
theorem safe_delete_raises_on_unknown_scheme :
    (safe_delete_from_backend [("file", fileStore)] "swift://host/obj" "img1").1 =
      .error (.unknownScheme "swift") := by
  rfl

/-- C1 (amended): `safe_delete_from_backend` catches exactly `NotFound`,
`StoreDeleteNotSupported` and `UnsupportedBackend` from the delete, logging
one event for each and returning normally; a successful delete returns
normally with no log; any other exception — in particular the
`UnknownScheme` scheme-resolution failure — propagates to the caller. -/
theorem safe_delete_best_effort (m : SchemeMap) (uri image_id : String) :
    (delete_from_backend m uri = .ok () →
      safe_delete_from_backend m uri image_id = (.ok (), [])) ∧
    (∀ e, delete_from_backend m uri = .error e →
      ((e = .notFound ∨ e = .storeDeleteNotSupported ∨ e = .unsupportedBackend) →
        (safe_delete_from_backend m uri image_id).1 = .ok () ∧
        (safe_delete_from_backend m uri image_id).2.length = 1) ∧
      (e ≠ .notFound → e ≠ .storeDeleteNotSupported → e ≠ .unsupportedBackend →
        (safe_delete_from_backend m uri image_id).1 = .error e)) := by
  constructor
  · intro h
    simp [safe_delete_from_backend, h]
  · intro e he
    constructor
    · rintro (rfl | rfl | rfl) <;> simp [safe_delete_from_backend, he]
    · intro h1 h2 h3
      cases e <;> simp_all [safe_delete_from_backend]

/-- C1 witness: a delete that fails with `NotFound` is caught — the wrapper
returns normally with one log event. -/
theorem safe_delete_best_effort_witness :
    delete_from_backend [("sheepdog", noAclStore)] "sheepdog://img" = .error .notFound ∧
    (safe_delete_from_backend [("sheepdog", noAclStore)] "sheepdog://img" "img1").1 = .ok () ∧
    (safe_delete_from_backend [("sheepdog", noAclStore)] "sheepdog://img" "img1").2.length = 1 := by
  have happ :=
    ((safe_delete_best_effort [("sheepdog", noAclStore)] "sheepdog://img" "img1").2
      Exc.notFound (by rfl)).1 (Or.inl rfl)
  exact ⟨by rfl, happ.1, happ.2⟩

/-- Auxiliary: the chunks yielded by running the iteration loop are exactly
the chunks still to come. -/
theorem iterGo_fst (buf : List String) (st : Indexable) : (iterGo buf st).1 = buf := by
  induction buf generalizing st with
  | nil => rfl
  | cons c rest ih => simp [iterGo, ih]

/-- C4 counterexample: iterating the adapter over the source `["ab", "cd"]`
yields `"ab"` and caches it, but the cursor stays at `0` instead of
advancing by the chunk's length. -/
theorem iter_does_not_advance_cursor :
    Indexable.iterStep (Indexable.init ["ab", "cd"] (some 4) Option.none) =
      some ("ab", ⟨["cd"], 4, 0, some "ab"⟩) ∧
    (0 : Nat) ≠ 0 + strLen "ab" := by
  exact ⟨rfl, by decide⟩

/-- C4 (amended): iterating the adapter yields exactly the source's chunks
in order, and after each yielded chunk the cached chunk equals that chunk —
but the cursor is left unchanged (it advances only through indexed
access). -/
theorem iter_yields_chunks_in_order (st : Indexable) :
    (st.iterAll).1 = st.wrapped ∧
    (∀ c st', st.iterStep = some (c, st') →
      st'.chunk = some c ∧ st'.cursor = st.cursor) := by
  constructor
  · exact iterGo_fst st.wrapped st
  · intro c st' h
    cases hw : st.wrapped with
    | nil => simp [Indexable.iterStep, hw] at h
    | cons a rest =>
        simp only [Indexable.iterStep, hw, Option.some.injEq, Prod.mk.injEq] at h
        obtain ⟨rfl, rfl⟩ := h
        exact ⟨rfl, rfl⟩

/-- C4 witness: on the source `["ab", "cd"]` the adapter yields
`["ab", "cd"]`, and the first step caches `"ab"` while keeping the cursor
at its prior value. -/
theorem iter_yields_chunks_in_order_witness :
    ((Indexable.init ["ab", "cd"] (some 4) Option.none).iterAll).1 = ["ab", "cd"] ∧
    (⟨["cd"], 4, 0, some "ab"⟩ : Indexable).chunk = some "ab" ∧
    (⟨["cd"], 4, 0, some "ab"⟩ : Indexable).cursor =
      (Indexable.init ["ab", "cd"] (some 4) Option.none).cursor :=
  ⟨(iter_yields_chunks_in_order (Indexable.init ["ab", "cd"] (some 4) Option.none)).1,
   ((iter_yields_chunks_in_order (Indexable.init ["ab", "cd"] (some 4) Option.none)).2
      "ab" ⟨["cd"], 4, 0, some "ab"⟩ (by rfl)).1,
   ((iter_yields_chunks_in_order (Indexable.init ["ab", "cd"] (some 4) Option.none)).2
      "ab" ⟨["cd"], 4, 0, some "ab"⟩ (by rfl)).2⟩

/-- C6 counterexample: with `"cd"` cached and the cursor at 4 (chunk span
`[2, 4)`), the offset 0 does not fall within the cached chunk, yet the
adapter does not fetch the next chunk `"ef"`: the negative slice clamps and
the whole cached chunk comes back with the state untouched. -/
theorem getitem_backward_returns_cached_not_next :
    Indexable.getitem nextChunk ⟨["ef"], 4, 4, some "cd"⟩ 0 =
      .ok (some "cd", ⟨["ef"], 4, 4, some "cd"⟩) ∧
    ((0 : Int) < (4 : Int) - (strLen "cd" : Int)) ∧
    Indexable.getitem nextChunk ⟨["ef"], 4, 4, some "cd"⟩ 0 ≠
      .ok (some "ef", ⟨[], 4, 6, some "ef"⟩) := by
  refine ⟨by rfl, by decide, ?_⟩
  intro h
  rw [show Indexable.getitem nextChunk ⟨["ef"], 4, 4, some "cd"⟩ 0 =
      .ok (some "cd", ⟨["ef"], 4, 4, some "cd"⟩) from rfl] at h
  simp at h

/-- C6 (amended): a requested offset below the cursor returns a slice of
the cached chunk — the tail from the requested offset whenever the offset
is at or after the chunk's start, the slice clamping to the whole chunk
otherwise; an offset at or past the cursor fetches the next chunk through
the `another()` seam, caches it, advances the cursor by its length (when
non-empty) and returns it whole. -/
theorem getitem_branch_behaviour (another : Indexable → Option String × Indexable)
    (st st' : Indexable) (start : Int) (c s : String) :
    (st.chunk = some c → start < (st.cursor : Int) →
      Indexable.getitem another st start =
        .ok (some (pySliceFrom c (start - (st.cursor : Int))), st) ∧
      ((st.cursor : Int) - strLen c ≤ start →
        pySliceFrom c (start - (st.cursor : Int)) =
          ⟨c.toList.drop (start - ((st.cursor : Int) - strLen c)).toNat⟩)) ∧
    ((st.cursor : Int) ≤ start → another st = (some s, st') → s ≠ "" →
      Indexable.getitem another st start =
        .ok (some s, { st' with chunk := some s, cursor := st'.cursor + strLen s })) := by
  constructor
  · intro hc hlt
    constructor
    · simp [Indexable.getitem, hlt, hc]
    · intro hge
      have hneg : start - (st.cursor : Int) < 0 := by omega
      simp only [pySliceFrom, if_pos hneg]
      rw [show ((strLen c : Int) + (start - (st.cursor : Int))).toNat =
        (start - ((st.cursor : Int) - (strLen c : Int))).toNat from by omega]
  · intro hge hseam hs
    simp [Indexable.getitem, not_lt.mpr hge, hseam, hs]

/-- C6 witness: with source chunks `["ab", "cd"]`, indexing at offset 0
right after `"ab"` is cached returns `"ab"`, and indexing at offset 2 —
past the cached chunk's end — fetches and returns `"cd"` whole, advancing
the cursor to 4. -/
theorem getitem_branch_behaviour_witness :
    Indexable.getitem nextChunk ⟨["cd"], 4, 2, some "ab"⟩ 0 =
      .ok (some "ab", ⟨["cd"], 4, 2, some "ab"⟩) ∧
    Indexable.getitem nextChunk ⟨["cd"], 4, 2, some "ab"⟩ 2 =
      .ok (some "cd", ⟨[], 4, 4, some "cd"⟩) := by
  constructor
  · have h := (getitem_branch_behaviour nextChunk ⟨["cd"], 4, 2, some "ab"⟩
      ⟨[], 0, 0, Option.none⟩ 0 "ab" "").1 rfl (by decide)
    rw [h.1]
    rw [show pySliceFrom "ab" ((0 : Int) - ((2 : Nat) : Int)) = "ab" from by decide]
  · have h := (getitem_branch_behaviour nextChunk ⟨["cd"], 4, 2, some "ab"⟩
      ⟨[], 4, 2, some "ab"⟩ 2 "" "cd").2 (by decide) rfl (by decide)
    rw [h]
    rfl

/-- C7: for each of add, get and delete, the dispatcher maps a
`NotImplementedError` from the resolved driver to the operation-specific
unsupported error, passes successful results through, and propagates any
other exception unchanged — the unsupported error is introduced only for
the not-implemented signal. -/
theorem dispatcher_not_implemented_mapping (m : SchemeMap) (uri : String)
    (loc : Location) (store : Store) (default_store image_id data : String)
    (size : Nat) (scheme : Option String) (store2 : Store)
    (hloc : get_location_from_uri m uri = .ok loc)
    (hstore : get_store_from_uri m uri = .ok store)
    (hstore2 : get_store_from_scheme m (scheme.getD default_store) = .ok store2) :
    ((store.get = .error .notImplementedError →
        get_from_backend m uri = .error .storeGetNotSupported) ∧
     (∀ v, store.get = .ok v → get_from_backend m uri = .ok v) ∧
     (∀ e, store.get = .error e → e ≠ .notImplementedError →
        get_from_backend m uri = .error e)) ∧
    ((store.delete = .error .notImplementedError →
        delete_from_backend m uri = .error .storeDeleteNotSupported) ∧
     (store.delete = .ok () → delete_from_backend m uri = .ok ()) ∧
     (∀ e, store.delete = .error e → e ≠ .notImplementedError →
        delete_from_backend m uri = .error e)) ∧
    ((store_add_to_backend image_id data size store2 = .error .notImplementedError →
        add_to_backend m default_store image_id data size scheme =
          .error .storeAddNotSupported) ∧
     (∀ r, store_add_to_backend image_id data size store2 = .ok r →
        add_to_backend m default_store image_id data size scheme = .ok r) ∧
     (∀ e, store_add_to_backend image_id data size store2 = .error e →
        e ≠ .notImplementedError →
        add_to_backend m default_store image_id data size scheme = .error e)) := by
  refine ⟨⟨?_, ?_, ?_⟩, ⟨?_, ?_, ?_⟩, ⟨?_, ?_, ?_⟩⟩
  · intro h
    simp [get_from_backend, hloc, hstore, h, bind, Except.bind]
  · intro v h
    simp [get_from_backend, hloc, hstore, h, bind, Except.bind]
  · intro e h hne
    cases e <;> simp_all [get_from_backend, hloc, hstore, bind, Except.bind]
  · intro h
    simp [delete_from_backend, hloc, hstore, h, bind, Except.bind]
  · intro h
    simp [delete_from_backend, hloc, hstore, h, bind, Except.bind]
  · intro e h hne
    cases e <;> simp_all [delete_from_backend, hloc, hstore, bind, Except.bind]
  · intro h
    simp [add_to_backend, hstore2, h, bind, Except.bind]
  · intro r h
    simp [add_to_backend, hstore2, h, bind, Except.bind]
  · intro e h hne
    cases e <;> simp_all [add_to_backend, hstore2, bind, Except.bind]

/-- C7 witness: against the all-implementing `file` driver, get, delete and
add all succeed with the driver's results — no unsupported error. -/
theorem dispatcher_not_implemented_mapping_witness :
    get_from_backend [("file", fileStore)] "file:///img" = .ok ["hello"] ∧
    delete_from_backend [("file", fileStore)] "file:///img" = .ok () ∧
    add_to_backend [("file", fileStore)] "file" "i" "d" 5 Option.none =
      .ok ("file:///img", 5, "chk", Option.none) := by
  have h := dispatcher_not_implemented_mapping [("file", fileStore)] "file:///img"
    ⟨"file", "file:///img"⟩ fileStore "file" "i" "d" 5 Option.none fileStore
    (by rfl) (by rfl) (by rfl)
  exact ⟨h.1.2.1 ["hello"] rfl, h.2.1.2.1 rfl,
    h.2.2.2.1 ("file:///img", 5, "chk", Option.none) (by rfl)⟩

/-- C8: when the resolved driver's `set_acls` raises `NotImplementedError`,
`set_acls` swallows it, emits exactly one debug-level log event and returns
normally. -/
theorem set_acls_unsupported_is_noop (m : SchemeMap) (uri : String)
    (loc : Location) (store : Store) (pub : Bool) (rt : List String)
    (wt : Option (List String))
    (hloc : get_location_from_uri m uri = .ok loc)
    (hstore : get_store_from_scheme m loc.store_name = .ok store)
    (hacl : store.set_acls = .error .notImplementedError) :
    set_acls m uri pub rt wt =
      (.ok (), [⟨.debug, "Skipping store.set_acls... not implemented."⟩]) := by
  simp [set_acls, get_store_from_location, hloc, hstore, hacl, Except.map,
    bind, Except.bind]

/-- C8 witness: the `sheepdog` driver lacks ACL support; `set_acls` on one
of its uris returns normally with a single debug log. -/
theorem set_acls_unsupported_is_noop_witness :
    set_acls [("sheepdog", noAclStore)] "sheepdog://img" false [] Option.none =
      (.ok (), [⟨.debug, "Skipping store.set_acls... not implemented."⟩]) :=
  set_acls_unsupported_is_noop [("sheepdog", noAclStore)] "sheepdog://img"
    ⟨"sheepdog", "sheepdog://img"⟩ noAclStore false [] Option.none
    (by rfl) (by rfl) rfl

/-- C9: at `store_add_to_backend`, absent (`None`) metadata skips
validation and the 4-tuple is returned unchanged; present non-dict metadata
— including a bare text value, which the recursive validator alone accepts
— fails with a `BackendException` before any recursive validation. -/
theorem store_add_metadata_gate (image_id data : String) (size : Nat)
    (store : Store) (loc : String) (sz : Nat) (chk : String) :
    (store.add = .ok (loc, sz, chk, Option.none) →
      store_add_to_backend image_id data size store = .ok (loc, sz, chk, Option.none)) ∧
    (∀ md, store.add = .ok (loc, sz, chk, some md) → isDict md = false →
      store_add_to_backend image_id data size store =
        .error (.backendException (invalidDriverMetadataMsg store.name))) ∧
    (∀ s : String, check_location_metadata (.str s) "" = .ok () ∧
      (store.add = .ok (loc, sz, chk, some (.str s)) →
        store_add_to_backend image_id data size store =
          .error (.backendException (invalidDriverMetadataMsg store.name)))) := by
  refine ⟨?_, ?_, ?_⟩
  · intro h
    simp [store_add_to_backend, h, bind, Except.bind, pure, Except.pure]
  · intro md h hd
    simp [store_add_to_backend, h, hd, bind, Except.bind, pure, Except.pure]
  · intro s
    refine ⟨by simp [check_location_metadata], fun h => ?_⟩
    simp [store_add_to_backend, h, isDict, bind, Except.bind, pure, Except.pure]

/-- C9 witness: the `mem` driver returns the bare text metadata `"t"`; the
add entry point rejects it even though the recursive validator alone
accepts that value. -/
theorem store_add_metadata_gate_witness :
    check_location_metadata (.str "t") "" = .ok () ∧
    store_add_to_backend "i" "d" 1 strMetaStore =
      .error (.backendException (invalidDriverMetadataMsg "mem")) :=
  ⟨(store_add_metadata_gate "i" "d" 1 strMetaStore "mem://x" 1 "c").2.2 "t" |>.1,
   (store_add_metadata_gate "i" "d" 1 strMetaStore "mem://x" 1 "c").2.2 "t" |>.2 rfl⟩

/-- C10: when the requested offset triggers a fetch and the `another()`
seam produces an empty or absent chunk, `__getitem__` returns that value
directly, caches it, and leaves the cursor exactly where the seam left it —
it never advances. -/
theorem getitem_empty_chunk_keeps_cursor
    (another : Indexable → Option String × Indexable) (st st' : Indexable)
    (start : Int) (ch : Option String)
    (hge : (st.cursor : Int) ≤ start)
    (hseam : another st = (ch, st'))
    (hch : ch = Option.none ∨ ch = some "") :
    Indexable.getitem another st start = .ok (ch, { st' with chunk := ch }) ∧
    ({ st' with chunk := ch }).cursor = st'.cursor := by
  rcases hch with rfl | rfl <;>
    simp [Indexable.getitem, not_lt.mpr hge, hseam]

/-- C10 witness: at end of stream the natural seam produces `None`; the
adapter returns it and the cursor stays at 7. -/
theorem getitem_empty_chunk_keeps_cursor_witness :
    Indexable.getitem nextChunk ⟨[], 4, 7, some "cd"⟩ 7 =
      .ok (Option.none, ⟨[], 4, 7, Option.none⟩) ∧
    (⟨[], 4, 7, Option.none⟩ : Indexable).cursor = 7 :=
  ⟨(getitem_empty_chunk_keeps_cursor nextChunk ⟨[], 4, 7, some "cd"⟩
      ⟨[], 4, 7, some "cd"⟩ 7 Option.none (by decide) rfl (Or.inl rfl)).1,
   rfl⟩

end GlanceStore
